import Mathlib

/-!
Shallow embedding of the CISS-task email-tracking server (Express/JavaScript).

The repository contains several independently evolved variants of the same
tracking pipeline:
* `src/server.js` concatenates two variants.  Variant 1 (`getGeolocation`
  with the e-mail-proxy short circuit, `isProxyIP`, `ipToLong`,
  `logTrackingEvent`, the `/pixel/:id.png` handler with forward metadata,
  `detectEmailClient`, `/api/report-forward`).  Variant 2 repeats the
  pipeline but replaces the proxy short circuit by a localhost check.
* `src/unnamed/part_001` is a third variant with a single-provider resolver,
  a `forwarded=true` driven pixel handler and the `/report-forward` endpoint
  that returns the recorded event.

JavaScript machine integers are modelled as `Int`/`Nat` with explicit
`% 2 ^ 32` reductions (`toInt32`, `toUInt32`); `NaN` produced by `parseInt`
is modelled as `Option.none` and coerced to `0` exactly where JavaScript's
`ToInt32` would do so.  Floating point values never influence control flow in
the source; coordinate numbers are carried as exact rationals (`JsNum`), with
`JsNum.nan` for `NaN`.  Promise rejection ("throw") is modelled by
`JsResult.thrown`.  String primitives (`split`, `includes`, `trim`,
`toLowerCase`) are implemented by structural recursion on the character list
so that every definition evaluates inside the kernel.
-/

/-- A JavaScript number as it appears in coordinate fields: either `NaN` or a
numeric value (carried exactly; the source never computes with it). -/
inductive JsNum where
  | nan
  | num (q : Rat)
  deriving DecidableEq, Repr

/-- JavaScript falsiness of a number: `NaN` and `0` are falsy. -/
def JsNum.falsy : JsNum → Bool
  | JsNum.nan => true
  | JsNum.num q => q == 0

/-- Outcome of an awaited JavaScript promise: a value, or a thrown error
(transport error, timeout, or an axios non-2xx response error). -/
inductive JsResult (α : Type) where
  | thrown (msg : String)
  | value (a : α)
  deriving DecidableEq, Repr

/-- JavaScript `x || d` for a possibly-absent string `x` (absent and the empty
string are falsy). -/
def strOr (x : Option String) (d : String) : String :=
  match x with
  | none => d
  | some s => if s = "" then d else s

/-- JavaScript `x || null` for a possibly-absent string: the empty string
collapses to `null`. -/
def strOrNull (x : Option String) : Option String :=
  match x with
  | none => none
  | some s => if s = "" then none else some s

/-- JavaScript `x || null` for a possibly-absent number field (absent, `NaN`
and `0` collapse to `null`). -/
def jsNumOrNull (x : Option JsNum) : Option JsNum :=
  match x with
  | none => none
  | some n => if n.falsy then none else some n

/-- JavaScript `s.includes(c)` for a single character. -/
def jsIncludesChar (s : String) (c : Char) : Bool :=
  s.toList.contains c

/-- Substring occurrence test on character lists. -/
def containsSub : List Char → List Char → Bool
  | [], pat => pat.isEmpty
  | l@(_ :: rest), pat => List.isPrefixOf pat l || containsSub rest pat

/-- JavaScript `s.includes(pat)` for a substring pattern. -/
def jsIncludes (s pat : String) : Bool :=
  containsSub s.toList pat.toList

/-- Split a character list at every occurrence of `sep` (JavaScript
`String.prototype.split` with a single-character separator). -/
def splitOnCharAux (sep : Char) : List Char → List Char → List String
  | [], acc => [String.mk acc.reverse]
  | c :: rest, acc =>
    if c = sep then String.mk acc.reverse :: splitOnCharAux sep rest []
    else splitOnCharAux sep rest (c :: acc)

/-- JavaScript `s.split(sep)` for a single-character separator. -/
def jsSplitChar (s : String) (sep : Char) : List String :=
  splitOnCharAux sep s.toList []

/-- JavaScript whitespace test (the characters relevant to the source). -/
def isJsWs (c : Char) : Bool :=
  c = ' ' || c = '\t' || c = '\n' || c = '\r'

/-- JavaScript `s.trim()`. -/
def jsTrim (s : String) : String :=
  String.mk (((s.toList.dropWhile isJsWs).reverse.dropWhile isJsWs).reverse)

/-- JavaScript `s.toLowerCase()` (ASCII case folding, which is all the source
compares against). -/
def jsToLower (s : String) : String :=
  String.mk (s.toList.map Char.toLower)

/-- Value of a list of decimal digit characters. -/
def digitsToNat (cs : List Char) : Nat :=
  cs.foldl (fun n c => n * 10 + (c.toNat - 48)) 0

/-- JavaScript `parseInt(s, 10)`: skip leading whitespace, optional sign,
then the longest prefix of decimal digits; `none` models `NaN`. -/
def jsParseInt10 (s : String) : Option Int :=
  let cs := s.toList.dropWhile isJsWs
  let signed : Int × List Char :=
    match cs with
    | '-' :: rest => (-1, rest)
    | '+' :: rest => (1, rest)
    | _ => (1, cs)
  let ds := signed.2.takeWhile Char.isDigit
  if ds.isEmpty then none else some (signed.1 * (digitsToNat ds : Int))

/-- JavaScript `parseFloat(s)` restricted to the shapes the source can meet
(optional sign, decimal digits, optional fraction; exponent notation is not
modelled).  `JsNum.nan` models `NaN`. -/
def jsParseFloat (s : String) : JsNum :=
  let cs := s.toList.dropWhile isJsWs
  let signed : Rat × List Char :=
    match cs with
    | '-' :: rest => (-1, rest)
    | '+' :: rest => (1, rest)
    | _ => (1, cs)
  let intPart := signed.2.takeWhile Char.isDigit
  let rest := signed.2.dropWhile Char.isDigit
  let fracPart : List Char :=
    match rest with
    | '.' :: r => r.takeWhile Char.isDigit
    | _ => []
  if intPart.isEmpty ∧ fracPart.isEmpty then JsNum.nan
  else
    JsNum.num (signed.1 *
      ((digitsToNat intPart : Rat) + (digitsToNat fracPart : Rat) / (10 ^ fracPart.length : Rat)))

/-- JavaScript `ToUint32`. -/
def toUInt32 (n : Int) : Nat := (n % (2 ^ 32 : Int)).toNat

/-- JavaScript `ToInt32`. -/
def toInt32 (n : Int) : Int := (n + 2 ^ 31) % 2 ^ 32 - 2 ^ 31

/-- `ToInt32` coercion applied to a `parseInt` result (`NaN` becomes `0`). -/
def numOr0 : Option Int → Int
  | none => 0
  | some n => n

/-- JavaScript `v << k` for a `parseInt` result `v` (32-bit signed shift). -/
def shl32 (v : Option Int) (k : Nat) : Int := toInt32 (toInt32 (numOr0 v) * 2 ^ k)

/-- JavaScript `a | b` on 32-bit signed integers, computed on the two's
complement bit patterns. -/
def or32 (a b : Int) : Int := toInt32 (Int.ofNat (Nat.lor (toUInt32 a) (toUInt32 b)))

/-- `ipToLong` from `src/server.js`: convert a dotted-quad IPv4 string to its
unsigned 32-bit value; `null` for IPv6-looking input (contains a colon) or a
part count other than 4. -/
def ipToLong (ip : String) : Option Nat :=
  if jsIncludesChar ip ':' then none
  else
    let parts := jsSplitChar ip '.'
    if parts.length ≠ 4 then none
    else
      some (toUInt32 (or32 (or32 (or32 (shl32 (jsParseInt10 parts[0]!) 24)
        (shl32 (jsParseInt10 parts[1]!) 16)) (shl32 (jsParseInt10 parts[2]!) 8))
        (numOr0 (jsParseInt10 parts[3]!))))

/-- The static table of known mail-provider IPv4 ranges from `isProxyIP` in
`src/server.js` (start, end as dotted-quad strings). -/
def emailProxyRanges : List (String × String) :=
  [("64.18.0.0", "64.18.15.255"),
   ("65.54.190.0", "65.54.190.255"),
   ("66.102.0.0", "66.102.15.255"),
   ("72.14.192.0", "72.14.255.255"),
   ("74.125.0.0", "74.125.255.255"),
   ("209.85.128.0", "209.85.255.255"),
   ("216.33.229.0", "216.33.229.255"),
   ("13.111.0.0", "13.111.255.255")]

/-- `isProxyIP` from `src/server.js`.  `if (!ipNum) return false` is the
JavaScript falsy test (both `null` and `0`); inside the range test a `null`
bound would compare as `0` (`ToNumber(null) = 0`), modelled by `getD 0`. -/
def isProxyIP (ip : String) : Bool :=
  match ipToLong ip with
  | none => false
  | some ipNum =>
    if ipNum = 0 then false
    else
      emailProxyRanges.any fun range =>
        decide (ipNum ≥ (ipToLong range.1).getD 0) && decide (ipNum ≤ (ipToLong range.2).getD 0)

/-- The numeric (inclusive) bounds of the configured proxy ranges. -/
def proxyRangeBounds : List (Nat × Nat) :=
  emailProxyRanges.map fun r => ((ipToLong r.1).getD 0, (ipToLong r.2).getD 0)

theorem zero_not_in_proxyRangeBounds : ¬ ∃ p ∈ proxyRangeBounds, p.1 ≤ 0 ∧ 0 ≤ p.2 := by
  decide

/-- Claim C4: for every IP string whose numeric value `ipToLong` is defined,
`isProxyIP` returns `true` exactly when that value lies within one of the
configured proxy ranges (bounds inclusive); and every input containing a colon
(IPv6) yields `false`. -/
theorem proxy_table_membership_spec :
    (∀ ip v, ipToLong ip = some v →
      (isProxyIP ip = true ↔ ∃ p ∈ proxyRangeBounds, p.1 ≤ v ∧ v ≤ p.2))
    ∧ (∀ ip, jsIncludesChar ip ':' = true → isProxyIP ip = false) := by
  constructor
  · intro ip v h
    by_cases hv : v = 0
    · subst hv
      have hL : isProxyIP ip = false := by simp [isProxyIP, h]
      rw [hL]
      exact iff_of_false (by simp) zero_not_in_proxyRangeBounds
    · have hL : isProxyIP ip
          = emailProxyRanges.any (fun range =>
              decide (v ≥ (ipToLong range.1).getD 0) && decide (v ≤ (ipToLong range.2).getD 0)) := by
        simp [isProxyIP, h, hv]
      rw [hL, List.any_eq_true]
      constructor
      · rintro ⟨r, hr, hpred⟩
        refine ⟨((ipToLong r.1).getD 0, (ipToLong r.2).getD 0), ?_, ?_⟩
        · exact List.mem_map_of_mem _ hr
        · simpa [ge_iff_le] using hpred
      · rintro ⟨p, hp, h1, h2⟩
        obtain ⟨r, hr, rfl⟩ := List.mem_map.mp hp
        exact ⟨r, hr, by simpa [ge_iff_le] using And.intro h1 h2⟩
  · intro ip h
    have hnone : ipToLong ip = none := by simp [ipToLong, h]
    simp [isProxyIP, hnone]

/-- Witness for C4 at concrete inputs: `74.125.10.5` (inside the Google
range) and the IPv6 loopback `::1`. -/
theorem proxy_table_membership_spec_witness :
    (isProxyIP "74.125.10.5" = true ↔
      ∃ p ∈ proxyRangeBounds, p.1 ≤ 1249708549 ∧ 1249708549 ≤ p.2)
    ∧ isProxyIP "::1" = false :=
  ⟨proxy_table_membership_spec.1 "74.125.10.5" 1249708549 (by decide),
   proxy_table_membership_spec.2 "::1" (by decide)⟩

/-- The common `Location` shape every resolver stage is normalized into.
Variant 1's proxy branch carries an extra `proxy` flag (the spec's
`isProxyInferred`); elsewhere the field is absent (`none`). -/
structure Location where
  country : String
  region : String
  city : String
  latitude : Option JsNum
  longitude : Option JsNum
  proxy : Option Bool := none
  deriving DecidableEq, Repr

/-- Decoded body of an `ipinfo.io` response (fields may be absent). -/
structure IpinfoData where
  country : Option String
  region : Option String
  city : Option String
  loc : Option String
  deriving DecidableEq, Repr

/-- Decoded body of an `ip-api.com` response (fields may be absent).
Variant 1 reads `countryCode`, `src/unnamed/part_001` reads `country`. -/
structure IpApiData where
  status : Option String
  country : Option String
  countryCode : Option String
  regionName : Option String
  city : Option String
  lat : Option JsNum
  lon : Option JsNum
  deriving DecidableEq, Repr

/-- A `geoip-lite` lookup record (`geoip.lookup` returns this or `null`). -/
structure GeoRecord where
  country : Option String
  region : Option String
  city : Option String
  ll : Option (JsNum × JsNum)
  deriving DecidableEq, Repr

/-- Per-request environment: the configuration and the outcome each external
lookup would produce if consulted.  `JsResult.value none` models an HTTP
success whose body is falsy. -/
structure GeoEnv where
  IPINFO_TOKEN : Bool
  ipinfo : JsResult (Option IpinfoData)
  ipApi : JsResult (Option IpApiData)
  geoip : Option GeoRecord
  deriving DecidableEq, Repr

/-- `const IP_API_ENABLED = true` from `src/server.js`. -/
def IP_API_ENABLED : Bool := true

/-- The provider stages of the resolver chain, in priority order. -/
inductive Provider where
  | ipinfo
  | ipApi
  | geoipLite
  deriving DecidableEq, Repr

/-- `coords[i] ? parseFloat(coords[i]) : null` (out-of-range indexing yields
`undefined`, which is falsy). -/
def coordVal (coords : List (Option String)) (i : Nat) : Option JsNum :=
  match coords[i]? with
  | some (some s) => if s = "" then none else some (jsParseFloat s)
  | _ => none

/-- Normalization of an `ipinfo.io` body (variant 1 and variant 2 of
`src/server.js`): `loc` is split at a comma into coordinates; absent fields
default to `'unknown'` / `''` / `null`. -/
def normalizeIpinfo (d : IpinfoData) : Location :=
  let coords : List (Option String) :=
    match d.loc with
    | none => [none, none]
    | some l => if l = "" then [none, none] else (jsSplitChar l ',').map some
  { country := strOr d.country "unknown"
    region := strOr d.region ""
    city := strOr d.city ""
    latitude := coordVal coords 0
    longitude := coordVal coords 1 }

/-- Normalization of an `ip-api.com` body in `src/server.js` (reads
`countryCode`). -/
def normalizeIpApiV1 (d : IpApiData) : Location :=
  { country := strOr d.countryCode "unknown"
    region := strOr d.regionName ""
    city := strOr d.city ""
    latitude := jsNumOrNull d.lat
    longitude := jsNumOrNull d.lon }

/-- Normalization of an `ip-api.com` body in `src/unnamed/part_001` (reads
`country`). -/
def normalizeIpApiP1 (d : IpApiData) : Location :=
  { country := strOr d.country "unknown"
    region := strOr d.regionName ""
    city := strOr d.city ""
    latitude := jsNumOrNull d.lat
    longitude := jsNumOrNull d.lon }

/-- Normalization of a `geoip-lite` record (`geo.ll?.[0] || null`). -/
def normalizeGeo (g : GeoRecord) : Location :=
  { country := strOr g.country "unknown"
    region := strOr g.region ""
    city := strOr g.city ""
    latitude := match g.ll with
      | none => none
      | some p => if p.1.falsy then none else some p.1
    longitude := match g.ll with
      | none => none
      | some p => if p.2.falsy then none else some p.2 }

/-- The all-unknown fallback Location returned when every stage fails. -/
def unknownLocation : Location :=
  { country := "unknown", region := "", city := "", latitude := none, longitude := none }

/-- The synthetic Location for a known e-mail-proxy IP (variant 1). -/
def emailProxyLocation : Location :=
  { country := "Email Proxy", region := "Email Client", city := "Proxy Server"
    latitude := none, longitude := none, proxy := some true }

/-- The synthetic Location for localhost (variant 2). -/
def localhostLocation : Location :=
  { country := "localhost", region := "local", city := "local"
    latitude := none, longitude := none }

/-- The `ipinfo.io` stage: only attempted when the token is configured; a
thrown request is caught by the surrounding `try`; a falsy body produces no
result; a truthy body is normalized and returned. -/
def stageIpinfo (env : GeoEnv) : JsResult (Option Location) :=
  if env.IPINFO_TOKEN then
    match env.ipinfo with
    | JsResult.thrown e => JsResult.thrown e
    | JsResult.value none => JsResult.value none
    | JsResult.value (some d) => JsResult.value (some (normalizeIpinfo d))
  else JsResult.value none

/-- The `ip-api.com` stage of `src/server.js`: accepted only when the body is
truthy and `status === 'success'`. -/
def stageIpApi (env : GeoEnv) : JsResult (Option Location) :=
  match env.ipApi with
  | JsResult.thrown e => JsResult.thrown e
  | JsResult.value none => JsResult.value none
  | JsResult.value (some d) =>
    if d.status = some "success" then JsResult.value (some (normalizeIpApiV1 d))
    else JsResult.value none

/-- The final `geoip-lite` stage: a `null` lookup yields the all-unknown
fallback. -/
def geoipStage (env : GeoEnv) : Location :=
  match env.geoip with
  | some g => normalizeGeo g
  | none => unknownLocation

/-- The ordered fallback chain shared verbatim by both `src/server.js`
variants (lines 64-122 and 580-638): each `catch` falls through to the next
stage; the trace records which external providers were consulted. -/
def providerChain (env : GeoEnv) : JsResult (Location × List Provider) :=
  let traceA : List Provider := if env.IPINFO_TOKEN then [Provider.ipinfo] else []
  match stageIpinfo env with
  | JsResult.value (some loc) => JsResult.value (loc, traceA)
  | _ =>
    if IP_API_ENABLED then
      match stageIpApi env with
      | JsResult.value (some loc) => JsResult.value (loc, traceA ++ [Provider.ipApi])
      | _ => JsResult.value (geoipStage env, traceA ++ [Provider.ipApi, Provider.geoipLite])
    else JsResult.value (geoipStage env, traceA ++ [Provider.geoipLite])

/-- `getGeolocation` of `src/server.js` variant 1: e-mail-proxy short
circuit, then the provider chain. -/
def getGeolocation (env : GeoEnv) (ip : String) : JsResult (Location × List Provider) :=
  if isProxyIP ip then JsResult.value (emailProxyLocation, [])
  else providerChain env

/-- `getGeolocation` of `src/server.js` variant 2 (lines 568-638): localhost
short circuit, then the same provider chain. -/
def getGeolocation2 (env : GeoEnv) (ip : String) : JsResult (Location × List Provider) :=
  if ip = "::1" || ip = "localhost" || ip = "127.0.0.1" then
    JsResult.value (localhostLocation, [])
  else providerChain env

theorem providerChain_value (env : GeoEnv) :
    ∃ p, providerChain env = JsResult.value p := by
  rcases hA : stageIpinfo env with e | _ | locA
  · rcases hB : stageIpApi env with e2 | _ | locB
    · exact ⟨_, by simp only [providerChain, hA, hB, IP_API_ENABLED, if_true]; rfl⟩
    · exact ⟨_, by simp only [providerChain, hA, hB, IP_API_ENABLED, if_true]; rfl⟩
    · exact ⟨_, by simp only [providerChain, hA, hB, IP_API_ENABLED, if_true]; rfl⟩
  · rcases hB : stageIpApi env with e2 | _ | locB
    · exact ⟨_, by simp only [providerChain, hA, hB, IP_API_ENABLED, if_true]; rfl⟩
    · exact ⟨_, by simp only [providerChain, hA, hB, IP_API_ENABLED, if_true]; rfl⟩
    · exact ⟨_, by simp only [providerChain, hA, hB, IP_API_ENABLED, if_true]; rfl⟩
  · exact ⟨_, by simp only [providerChain, hA]; rfl⟩

/-- Claim C1: for every environment and every input IP string, variant 1's
`resolve` terminates with a `Location` value (all fields populated by
construction of the `Location` structure) and never propagates a provider
error: every throwing site sits inside a `catch` that falls through. -/
theorem resolver_total_never_throws :
    ∀ (env : GeoEnv) (ip : String), ∃ loc trace,
      getGeolocation env ip = JsResult.value (loc, trace) := by
  intro env ip
  by_cases hp : isProxyIP ip
  · exact ⟨emailProxyLocation, [], by simp [getGeolocation, hp]⟩
  · obtain ⟨⟨loc, tr⟩, h⟩ := providerChain_value env
    exact ⟨loc, tr, by simp [getGeolocation, hp, h]⟩

/-- Claim C3: when the stages before stage S fail (thrown request) and stage
S succeeds, `resolve` returns stage S's normalized result and consults no
later stage (visible in the consultation trace), for S = ipinfo, ip-api and
geoip-lite respectively. -/
theorem resolver_first_success_short_circuits :
    (∀ (env : GeoEnv) (ip : String) (d : IpinfoData),
        isProxyIP ip = false → env.IPINFO_TOKEN = true →
        env.ipinfo = JsResult.value (some d) →
        getGeolocation env ip = JsResult.value (normalizeIpinfo d, [Provider.ipinfo]))
    ∧ (∀ (env : GeoEnv) (ip : String) (e : String) (d : IpApiData),
        isProxyIP ip = false → env.IPINFO_TOKEN = true →
        env.ipinfo = JsResult.thrown e →
        env.ipApi = JsResult.value (some d) → d.status = some "success" →
        getGeolocation env ip
          = JsResult.value (normalizeIpApiV1 d, [Provider.ipinfo, Provider.ipApi]))
    ∧ (∀ (env : GeoEnv) (ip : String) (e : String) (g : GeoRecord),
        isProxyIP ip = false → env.IPINFO_TOKEN = true →
        env.ipinfo = JsResult.thrown e →
        ((∃ e2, env.ipApi = JsResult.thrown e2) ∨
          (∃ d, env.ipApi = JsResult.value (some d) ∧ d.status ≠ some "success") ∨
          env.ipApi = JsResult.value none) →
        env.geoip = some g →
        getGeolocation env ip = JsResult.value
          (normalizeGeo g, [Provider.ipinfo, Provider.ipApi, Provider.geoipLite])) := by
  refine ⟨?_, ?_, ?_⟩
  · intro env ip d hp ht hA
    simp [getGeolocation, hp, providerChain, stageIpinfo, ht, hA]
  · intro env ip e d hp ht hA hB hs
    simp [getGeolocation, hp, providerChain, stageIpinfo, stageIpApi, ht, hA, hB, hs,
      IP_API_ENABLED]
  · intro env ip e g hp ht hA hB hg
    rcases hB with ⟨e2, hB⟩ | ⟨d, hB, hs⟩ | hB
    · simp [getGeolocation, hp, providerChain, stageIpinfo, stageIpApi, ht, hA, hB,
        IP_API_ENABLED, geoipStage, hg]
    · simp [getGeolocation, hp, providerChain, stageIpinfo, stageIpApi, ht, hA, hB, hs,
        IP_API_ENABLED, geoipStage, hg]
    · simp [getGeolocation, hp, providerChain, stageIpinfo, stageIpApi, ht, hA, hB,
        IP_API_ENABLED, geoipStage, hg]

/-- An `ipinfo.io` body with only a country. -/
def ipinfoUS : IpinfoData :=
  { country := some "US", region := none, city := none, loc := none }

/-- A successful `ip-api.com` body. -/
def ipApiDE : IpApiData :=
  { status := some "success", country := some "Germany", countryCode := some "DE"
    regionName := some "Berlin", city := some "Berlin", lat := none, lon := none }

/-- An `ip-api.com` body whose status is not `'success'`. -/
def ipApiFail : IpApiData :=
  { status := some "fail", country := none, countryCode := none
    regionName := none, city := none, lat := none, lon := none }

/-- A `geoip-lite` record. -/
def geoRecordFR : GeoRecord :=
  { country := some "FR", region := some "IDF", city := some "Paris", ll := none }

/-- The Location that `normalizeIpinfo ipinfoUS` denotes, written out. -/
def locUS : Location :=
  { country := "US", region := "", city := "", latitude := none, longitude := none }

/-- Environment in which every provider would answer. -/
def envAllOk : GeoEnv :=
  { IPINFO_TOKEN := true
    ipinfo := JsResult.value (some ipinfoUS)
    ipApi := JsResult.value (some ipApiDE)
    geoip := some geoRecordFR }

/-- Environment in which the `ipinfo.io` request throws. -/
def envAFail : GeoEnv := { envAllOk with ipinfo := JsResult.thrown "timeout" }

/-- Environment in which both network providers throw. -/
def envABFail : GeoEnv :=
  { envAllOk with ipinfo := JsResult.thrown "timeout", ipApi := JsResult.thrown "ECONNREFUSED" }

/-- Witness for C3: each of the three stages wins exactly when the earlier
ones failed, on concrete environments. -/
theorem resolver_first_success_short_circuits_witness :
    getGeolocation envAllOk "8.8.8.8"
      = JsResult.value (normalizeIpinfo ipinfoUS, [Provider.ipinfo])
    ∧ getGeolocation envAFail "8.8.8.8"
      = JsResult.value (normalizeIpApiV1 ipApiDE, [Provider.ipinfo, Provider.ipApi])
    ∧ getGeolocation envABFail "8.8.8.8"
      = JsResult.value (normalizeGeo geoRecordFR,
          [Provider.ipinfo, Provider.ipApi, Provider.geoipLite]) :=
  ⟨resolver_first_success_short_circuits.1 envAllOk "8.8.8.8" ipinfoUS (by decide) rfl rfl,
   resolver_first_success_short_circuits.2.1 envAFail "8.8.8.8" "timeout" ipApiDE
     (by decide) rfl rfl rfl rfl,
   resolver_first_success_short_circuits.2.2 envABFail "8.8.8.8" "timeout" geoRecordFR
     (by decide) rfl rfl (Or.inl ⟨"ECONNREFUSED", rfl⟩) rfl⟩

/-- Claim C6: an IP flagged by `isProxyIP` resolves to the synthetic
"Email Proxy" Location with the proxy flag set, consulting no provider (the
trace is empty). -/
theorem resolver_proxy_skips_lookups :
    ∀ (env : GeoEnv) (ip : String), isProxyIP ip = true →
      getGeolocation env ip = JsResult.value (emailProxyLocation, [])
      ∧ emailProxyLocation.proxy = some true := by
  intro env ip h
  exact ⟨by simp [getGeolocation, h], rfl⟩

/-- Witness for C6 at a Google-range IP with all providers live. -/
theorem resolver_proxy_skips_lookups_witness :
    getGeolocation envAllOk "74.125.10.5" = JsResult.value (emailProxyLocation, [])
    ∧ emailProxyLocation.proxy = some true :=
  resolver_proxy_skips_lookups envAllOk "74.125.10.5" (by decide)

/-- Claim C7 (amended): in the variant that has a local-address check at all
(variant 2), exactly the literal addresses `::1`, `localhost` and `127.0.0.1`
short-circuit to the synthetic local Location with no provider consultation. -/
theorem resolver_local_literals_amended :
    ∀ (env : GeoEnv) (ip : String),
      ip = "::1" ∨ ip = "localhost" ∨ ip = "127.0.0.1" →
      getGeolocation2 env ip = JsResult.value (localhostLocation, []) := by
  intro env ip h
  rcases h with h | h | h <;> subst h <;> simp [getGeolocation2]

/-- Witness for the amended C7 at `127.0.0.1`. -/
theorem resolver_local_literals_amended_witness :
    getGeolocation2 envAllOk "127.0.0.1" = JsResult.value (localhostLocation, []) :=
  resolver_local_literals_amended envAllOk "127.0.0.1" (Or.inr (Or.inr rfl))

/-- Counterexample for C7 as stated: the private (RFC1918) address
`192.168.1.1` is not caught by variant 2's localhost check — the resolver
consults the `ipinfo.io` provider and returns its data, not the synthetic
local Location; and variant 1 performs a network lookup even for the
loopback address `127.0.0.1`. -/
theorem resolver_private_ip_counterexample :
    getGeolocation2 envAllOk "192.168.1.1" = JsResult.value (locUS, [Provider.ipinfo])
    ∧ getGeolocation envAllOk "127.0.0.1" = JsResult.value (locUS, [Provider.ipinfo]) := by
  decide

/-- An HTTP-success `ipinfo.io` body lacking every expected field. -/
def ipinfoEmptyBody : IpinfoData :=
  { country := none, region := none, city := none, loc := none }

/-- Environment where `ipinfo.io` answers with a truthy but field-less body
while `ip-api.com` would answer successfully. -/
def envMalformedA : GeoEnv :=
  { IPINFO_TOKEN := true
    ipinfo := JsResult.value (some ipinfoEmptyBody)
    ipApi := JsResult.value (some ipApiDE)
    geoip := some geoRecordFR }

/-- Environment where `ipinfo.io` throws and `ip-api.com` answers with a
non-success status. -/
def envMalformedB : GeoEnv :=
  { IPINFO_TOKEN := true
    ipinfo := JsResult.thrown "timeout"
    ipApi := JsResult.value (some ipApiFail)
    geoip := some geoRecordFR }

/-- Counterexample for C8 as stated: an HTTP-success `ipinfo.io` response
whose body lacks every expected field is NOT treated like an errored stage —
the chain accepts it (normalized to `'unknown'` defaults) and never consults
`ip-api.com`, which would have returned real data. -/
theorem resolver_malformed_accepts_counterexample :
    getGeolocation envMalformedA "8.8.8.8"
      = JsResult.value (unknownLocation, [Provider.ipinfo]) := by
  decide

/-- Claim C8 (amended): a malformed `ip-api.com` response (status not
`'success'`) falls through to the next stage, and the chain never throws;
but a truthy `ipinfo.io` body is always accepted after normalization with
`'unknown'`/`''`/`null` defaults, rather than falling through. -/
theorem resolver_malformed_stage_handling :
    (∀ (env : GeoEnv) (ip : String) (d : IpinfoData),
        isProxyIP ip = false → env.IPINFO_TOKEN = true →
        env.ipinfo = JsResult.value (some d) →
        getGeolocation env ip = JsResult.value (normalizeIpinfo d, [Provider.ipinfo]))
    ∧ (∀ (env : GeoEnv) (ip : String) (e : String) (d : IpApiData),
        isProxyIP ip = false → env.IPINFO_TOKEN = true →
        env.ipinfo = JsResult.thrown e →
        env.ipApi = JsResult.value (some d) → d.status ≠ some "success" →
        getGeolocation env ip
          = JsResult.value (geoipStage env, [Provider.ipinfo, Provider.ipApi, Provider.geoipLite]))
    ∧ (∀ (env : GeoEnv) (ip : String), ∃ p, getGeolocation env ip = JsResult.value p) := by
  refine ⟨?_, ?_, ?_⟩
  · intro env ip d hp ht hA
    simp [getGeolocation, hp, providerChain, stageIpinfo, ht, hA]
  · intro env ip e d hp ht hA hB hs
    simp [getGeolocation, hp, providerChain, stageIpinfo, stageIpApi, ht, hA, hB, hs,
      IP_API_ENABLED]
  · intro env ip
    by_cases hp : isProxyIP ip
    · exact ⟨(emailProxyLocation, []), by simp [getGeolocation, hp]⟩
    · obtain ⟨p, h⟩ := providerChain_value env
      exact ⟨p, by simp [getGeolocation, hp, h]⟩

/-- Witness for the amended C8: the field-less `ipinfo.io` body is accepted;
the failed-status `ip-api.com` body falls through to `geoip-lite`. -/
theorem resolver_malformed_stage_handling_witness :
    getGeolocation envMalformedA "8.8.8.8"
      = JsResult.value (normalizeIpinfo ipinfoEmptyBody, [Provider.ipinfo])
    ∧ getGeolocation envMalformedB "8.8.8.8"
      = JsResult.value (geoipStage envMalformedB,
          [Provider.ipinfo, Provider.ipApi, Provider.geoipLite]) :=
  ⟨resolver_malformed_stage_handling.1 envMalformedA "8.8.8.8" ipinfoEmptyBody
     (by decide) rfl rfl,
   resolver_malformed_stage_handling.2.1 envMalformedB "8.8.8.8" "timeout" ipApiFail
     (by decide) rfl rfl rfl (by decide)⟩

theorem getGeolocation_value (env : GeoEnv) (ip : String) :
    ∃ p, getGeolocation env ip = JsResult.value p := by
  by_cases hp : isProxyIP ip
  · exact ⟨(emailProxyLocation, []), by simp [getGeolocation, hp]⟩
  · obtain ⟨p, h⟩ := providerChain_value env
    exact ⟨p, by simp [getGeolocation, hp, h]⟩

/-- The four formatted device strings every handler derives from the parsed
user agent. -/
structure DeviceInfo where
  browser : String
  os : String
  model : String
  type : String
  deriving DecidableEq, Repr

/-- The `UAParser` outputs the handlers read (an external library; its result
is request data for the embedding; each field may be absent). -/
structure UaInfo where
  browserName : Option String
  browserVersion : Option String
  osName : Option String
  osVersion : Option String
  deviceModel : Option String
  deviceType : Option String
  deriving DecidableEq, Repr

/-- The template-literal formatting applied in each handler, for example
`browser: `${browser.name || 'unknown'} ${browser.version || ''}``. -/
def deviceOf (ua : UaInfo) : DeviceInfo :=
  { browser := strOr ua.browserName "unknown" ++ " " ++ strOr ua.browserVersion ""
    os := strOr ua.osName "unknown" ++ " " ++ strOr ua.osVersion ""
    model := strOr ua.deviceModel "unknown"
    type := strOr ua.deviceType "unknown" }

/-- The event objects passed to `logTrackingEvent` by the handlers that the
claims exercise: the `open` event of variant 1's pixel handler, the dynamic
open/forward-open event of `src/unnamed/part_001`'s pixel handler, and the
forward-report event. -/
inductive Event where
  | openV1 (ip referer : String) (location : Location) (device : DeviceInfo)
      (isProxyDetected : Bool) (emailClient : String) (isForwarded : Bool)
      (originalRecipient : Option String)
  | pixelOpenP1 (typeName originalRecipient ip : String) (location : Location)
      (timestamp : String) (device : DeviceInfo)
  | forwardReport (forwardedTo forwardedFrom method timestamp : String)
  deriving DecidableEq, Repr

/-- The `type` field of the event object. -/
def Event.type : Event → String
  | Event.openV1 .. => "open"
  | Event.pixelOpenP1 t _ _ _ _ _ => t
  | Event.forwardReport .. => "forward-report"

/-- The `timestamp` field the event object itself carries, if any (the
part_001 pixel event and the forward-report event both embed one). -/
def Event.ownTimestamp : Event → Option String
  | Event.openV1 .. => none
  | Event.pixelOpenP1 _ _ _ _ ts _ => some ts
  | Event.forwardReport _ _ _ ts => some ts

/-- The `originalRecipient` field of the event object, if present. -/
def Event.originalRecipientField : Event → Option String
  | Event.openV1 _ _ _ _ _ _ _ orc => orc
  | Event.pixelOpenP1 _ orc _ _ _ _ => some orc
  | Event.forwardReport .. => none

/-- An entry of the tracking log. -/
structure LogEntry where
  trackingId : String
  timestamp : String
  event : Event
  deriving DecidableEq, Repr

/-- `const logEntry = { trackingId, timestamp, ...event }`: the spread comes
last, so an event carrying its own `timestamp` field overrides the outer
one. -/
def mkLogEntry (trackingId ts : String) (ev : Event) : LogEntry :=
  { trackingId := trackingId, timestamp := (Event.ownTimestamp ev).getD ts, event := ev }

/-- The in-memory index `trackingData`, a JavaScript object keyed by tracking
identifier, modelled as an insertion-ordered association list. -/
abbrev Store := List (String × List LogEntry)

/-- JavaScript property read `trackingData[k]` (`none` is `undefined`). -/
def Store.lookup : Store → String → Option (List LogEntry)
  | [], _ => none
  | (k2, v) :: rest, k => if k2 = k then some v else Store.lookup rest k

/-- JavaScript property assignment `trackingData[k] = v`. -/
def Store.set : Store → String → List LogEntry → Store
  | [], k, v => [(k, v)]
  | (k2, v2) :: rest, k, v =>
    if k2 = k then (k, v) :: rest else (k2, v2) :: Store.set rest k v

/-- `logTrackingEvent` (`src/unnamed/part_001` lines 39-51; the in-memory
effect of the `src/server.js` copies is identical, they merely do not return
the entry): initialize the id's sequence when the slot is `undefined`, push
the entry, return it. -/
def logTrackingEvent (store : Store) (trackingId : String) (ts : String) (ev : Event) :
    Store × LogEntry :=
  let logEntry := mkLogEntry trackingId ts ev
  let cur := match Store.lookup store trackingId with
    | none => []
    | some l => l
  (Store.set store trackingId (cur ++ [logEntry]), logEntry)

theorem Store.lookup_set_self (s : Store) (k : String) (v : List LogEntry) :
    Store.lookup (Store.set s k v) k = some v := by
  induction s with
  | nil => simp [Store.set, Store.lookup]
  | cons hd tl ih =>
    obtain ⟨k2, v2⟩ := hd
    by_cases h : k2 = k
    · simp [Store.set, Store.lookup, h]
    · simp [Store.set, Store.lookup, h, ih]

theorem Store.lookup_set_ne (s : Store) (k k2 : String) (v : List LogEntry)
    (h : k2 ≠ k) : Store.lookup (Store.set s k v) k2 = Store.lookup s k2 := by
  induction s with
  | nil => simp [Store.set, Store.lookup, Ne.symm h]
  | cons hd tl ih =>
    obtain ⟨k3, v3⟩ := hd
    by_cases h3 : k3 = k
    · subst h3
      simp [Store.set, Store.lookup, Ne.symm h]
    · simp [Store.set, Store.lookup, h3, ih]

/-- Claim C10: a `logTrackingEvent` call appends exactly one entry — the
given event extended with the tracking id and a timestamp — at the end of
that id's sequence in the in-memory index; the earlier entries of that
sequence and the sequences of every other id are untouched. -/
theorem log_event_append_frame :
    ∀ (store : Store) (tid ts : String) (ev : Event),
      Store.lookup (logTrackingEvent store tid ts ev).1 tid
        = some (((Store.lookup store tid).getD []) ++ [(logTrackingEvent store tid ts ev).2])
      ∧ (∀ k, k ≠ tid →
          Store.lookup (logTrackingEvent store tid ts ev).1 k = Store.lookup store k)
      ∧ (logTrackingEvent store tid ts ev).2 = mkLogEntry tid ts ev
      ∧ (mkLogEntry tid ts ev).trackingId = tid
      ∧ (mkLogEntry tid ts ev).event = ev := by
  intro store tid ts ev
  refine ⟨?_, ?_, rfl, rfl, rfl⟩
  · simp only [logTrackingEvent]
    rw [Store.lookup_set_self]
    cases h : Store.lookup store tid <;> simp [h]
  · intro k hk
    simp only [logTrackingEvent]
    exact Store.lookup_set_ne store tid k _ hk

/-- A concrete forward-report event. -/
def ev0 : Event := Event.forwardReport "x@example.com" "unknown" "api" "2024-01-01T00:00:00Z"

/-- A concrete log entry. -/
def entry0 : LogEntry := mkLogEntry "a" "2024-01-01T00:00:00Z" ev0

/-- A concrete two-key store. -/
def store0 : Store := [("a", [entry0]), ("b", [])]

/-- Witness for C10 on a concrete store: the `a` sequence gains one entry at
the end and the `b` sequence is untouched. -/
theorem log_event_append_frame_witness :
    Store.lookup (logTrackingEvent store0 "a" "T1" ev0).1 "a"
      = some (((Store.lookup store0 "a").getD []) ++ [(logTrackingEvent store0 "a" "T1" ev0).2])
    ∧ Store.lookup (logTrackingEvent store0 "a" "T1" ev0).1 "b" = Store.lookup store0 "b"
    ∧ (logTrackingEvent store0 "a" "T1" ev0).2 = mkLogEntry "a" "T1" ev0 :=
  ⟨(log_event_append_frame store0 "a" "T1" ev0).1,
   (log_event_append_frame store0 "a" "T1" ev0).2.1 "b" (by decide),
   (log_event_append_frame store0 "a" "T1" ev0).2.2.1⟩

/-- JavaScript falsiness of a possibly-absent string (`undefined` and `''`
are falsy). -/
def jsFalsyS (x : Option String) : Bool :=
  match x with
  | none => true
  | some s => decide (s = "")

/-- The decoded JSON body of a `POST /report-forward` request. -/
structure ReportForwardBody where
  trackingId : Option String
  forwardedTo : Option String
  forwardedFrom : Option String
  deriving DecidableEq, Repr

/-- The two responses of the `/report-forward` handler of
`src/unnamed/part_001`. -/
inductive ReportForwardResponse where
  | badRequest (error : String)
  | success (message : String) (event : LogEntry)
  deriving DecidableEq, Repr

/-- HTTP status of a `/report-forward` response. -/
def ReportForwardResponse.status : ReportForwardResponse → Nat
  | ReportForwardResponse.badRequest _ => 400
  | ReportForwardResponse.success _ _ => 200

/-- `app.post('/report-forward')` from `src/unnamed/part_001` (lines
129-145): validate `trackingId`/`forwardedTo` by JavaScript truthiness,
record a forward-report event, return it.  The middle component lists the
entries recorded while handling the request. -/
def reportForwardHandler (store : Store) (body : ReportForwardBody) (ts : String) :
    Store × List LogEntry × ReportForwardResponse :=
  if jsFalsyS body.trackingId || jsFalsyS body.forwardedTo then
    (store, [], ReportForwardResponse.badRequest "Missing required parameters")
  else
    let ev : Event := Event.forwardReport (body.forwardedTo.getD "")
      (strOr body.forwardedFrom "unknown") "form-submission" ts
    let r := logTrackingEvent store (body.trackingId.getD "") ts ev
    (r.1, [r.2], ReportForwardResponse.success "Forward reported successfully" r.2)

/-- Claim C5 (amended): a missing — or empty, since the source tests
JavaScript truthiness — `trackingId` or `forwardedTo` yields the 400
response and leaves the store untouched with nothing recorded; when both are
present and non-empty, exactly one forward-report event is appended and
returned in the success response. -/
theorem report_forward_validation_amended :
    (∀ (store : Store) (body : ReportForwardBody) (ts : String),
        (jsFalsyS body.trackingId || jsFalsyS body.forwardedTo) = true →
        reportForwardHandler store body ts
          = (store, [], ReportForwardResponse.badRequest "Missing required parameters"))
    ∧ (∀ (store : Store) (tid fto : String) (ff : Option String) (ts : String),
        tid ≠ "" → fto ≠ "" →
        ∃ entry,
          reportForwardHandler store ⟨some tid, some fto, ff⟩ ts
            = (Store.set store tid (((Store.lookup store tid).getD []) ++ [entry]),
               [entry], ReportForwardResponse.success "Forward reported successfully" entry)
          ∧ entry.event = Event.forwardReport fto (strOr ff "unknown") "form-submission" ts
          ∧ Event.type entry.event = "forward-report"
          ∧ entry.trackingId = tid
          ∧ (ReportForwardResponse.badRequest "Missing required parameters").status = 400) := by
  constructor
  · intro store body ts h
    simp [reportForwardHandler, h]
  · intro store tid fto ff ts h1 h2
    refine ⟨mkLogEntry tid ts
      (Event.forwardReport fto (strOr ff "unknown") "form-submission" ts), ?_, rfl, rfl, rfl, rfl⟩
    have hcond : (jsFalsyS (some tid) || jsFalsyS (some fto)) = false := by
      simp [jsFalsyS, h1, h2]
    simp only [reportForwardHandler, hcond, Bool.false_eq_true, if_false, logTrackingEvent]
    cases h : Store.lookup store tid <;> simp [h]

/-- Counterexample for C5 as stated: a body in which both fields are present
but `forwardedTo` is the empty string is rejected with the 400 response and
records nothing, although the claim promises a recorded event whenever both
fields are present. -/
theorem report_forward_empty_counterexample :
    reportForwardHandler [] ⟨some "abc", some "", none⟩ "2024-01-01T00:00:00Z"
      = ([], [], ReportForwardResponse.badRequest "Missing required parameters") := by
  decide

/-- Witness for the amended C5 on concrete bodies. -/
theorem report_forward_validation_amended_witness :
    reportForwardHandler store0 ⟨none, some "x@example.com", none⟩ "T2"
      = (store0, [], ReportForwardResponse.badRequest "Missing required parameters")
    ∧ ∃ entry,
        reportForwardHandler store0 ⟨some "abc", some "x@example.com", none⟩ "T2"
          = (Store.set store0 "abc" (((Store.lookup store0 "abc").getD []) ++ [entry]),
             [entry], ReportForwardResponse.success "Forward reported successfully" entry)
        ∧ entry.event
            = Event.forwardReport "x@example.com" (strOr none "unknown") "form-submission" "T2"
        ∧ Event.type entry.event = "forward-report"
        ∧ entry.trackingId = "abc"
        ∧ (ReportForwardResponse.badRequest "Missing required parameters").status = 400 :=
  ⟨report_forward_validation_amended.1 store0 ⟨none, some "x@example.com", none⟩ "T2"
     (by decide),
   report_forward_validation_amended.2 store0 "abc" "x@example.com" none "T2"
     (by decide) (by decide)⟩

/-- The base64 alphabet. -/
def base64Chars : List Char :=
  "ABCDEFGHIJKLMNOPQRSTUVWXYZabcdefghijklmnopqrstuvwxyz0123456789+/".toList

/-- Index of a character in the base64 alphabet. -/
def b64IndexAux : List Char → Char → Nat → Option Nat
  | [], _, _ => none
  | c :: rest, x, i => if c = x then some i else b64IndexAux rest x (i + 1)

/-- `Buffer.from(s, 'base64')`: decode a base64 string into its bytes. -/
def base64Decode (s : String) : List Nat :=
  let vals := (s.toList.filter (fun c => c ≠ '=')).filterMap (fun c => b64IndexAux base64Chars c 0)
  let n := vals.length
  let numBytes := n * 6 / 8
  let big := (vals.foldl (fun acc v => acc * 64 + v) 0) / 2 ^ (n * 6 - numBytes * 8)
  (List.range numBytes).map fun i => big / 2 ^ ((numBytes - 1 - i) * 8) % 256

/-- The fixed 1x1 transparent GIF served by every pixel handler. -/
def pixelBuffer : List Nat :=
  base64Decode "R0lGODlhAQABAIAAAAAAAP///yH5BAEAAAAALAAAAAABAAEAAAIBRAA7"

/-- An HTTP response as produced by `res.writeHead`/`res.end`. -/
structure HttpResponse where
  status : Nat
  headers : List (String × String)
  body : List Nat
  deriving DecidableEq, Repr

/-- The response every pixel handler writes: status 200, the five fixed
headers, and the pixel bytes. -/
def pixelHttpResponse : HttpResponse :=
  { status := 200
    headers := [("Content-Type", "image/gif"),
      ("Content-Length", toString pixelBuffer.length),
      ("Cache-Control", "no-store, no-cache, must-revalidate, proxy-revalidate"),
      ("Pragma", "no-cache"),
      ("Expires", "0")]
    body := pixelBuffer }

/-- `detectEmailClient` from `src/server.js`: prioritized substring
heuristics over the lower-cased user agent and referer. -/
def detectEmailClient (userAgent referer : String) : String :=
  let ua := jsToLower userAgent
  let ref := if referer = "" then "" else jsToLower referer
  if jsIncludes ua "googlebot" || jsIncludes ref "mail.google.com" then "Gmail"
  else if jsIncludes ua "outlook" || jsIncludes ref "outlook.live.com" then "Outlook"
  else if jsIncludes ua "yahoo" || jsIncludes ref "mail.yahoo.com" then "Yahoo Mail"
  else if jsIncludes ua "apple" || jsIncludes ua "iphone" || jsIncludes ua "ipad" ||
    jsIncludes ua "macintosh" then "Apple Mail"
  else "Unknown"

/-- The IP extraction shared by the handlers: `x-forwarded-for` header or the
socket address or `'unknown'`, then the first comma-separated entry,
trimmed. -/
def clientIp (xff remote : Option String) : String :=
  let ip := strOr xff (strOr remote "unknown")
  if jsIncludesChar ip ',' then jsTrim (jsSplitChar ip ',')[0]! else ip

/-- A `GET /pixel/:id.png` request as seen by variant 1 of `src/server.js`:
path parameter, `original_recipient` query parameter, headers and the parsed
user agent. -/
structure PixelRequest where
  id : String
  original_recipient : Option String
  xForwardedFor : Option String
  remoteAddress : Option String
  userAgent : Option String
  referer : Option String
  ua : UaInfo
  deriving DecidableEq, Repr

/-- `app.get('/pixel/:id.png')` of `src/server.js` variant 1 (lines 162-213):
resolve the location (an uncaught rejection would abort the handler, hence
the `JsResult`), record one `open` event with forward metadata, respond with
the fixed pixel. -/
def pixelHandler (env : GeoEnv) (store : Store) (req : PixelRequest) (ts : String) :
    JsResult (Store × LogEntry × HttpResponse) :=
  let trackingId := req.id
  let originalRecipient := strOrNull req.original_recipient
  let ip := clientIp req.xForwardedFor req.remoteAddress
  let userAgent := strOr req.userAgent "unknown"
  let referer := strOr req.referer "unknown"
  let emailClient := detectEmailClient userAgent referer
  match getGeolocation env ip with
  | JsResult.thrown e => JsResult.thrown e
  | JsResult.value loc =>
    let trackingInfo := Event.openV1 ip referer loc.1 (deviceOf req.ua) (isProxyIP ip)
      emailClient originalRecipient.isSome originalRecipient
    let r := logTrackingEvent store trackingId ts trackingInfo
    JsResult.value (r.1, r.2, pixelHttpResponse)

/-- A `GET /pixel/:id.png` request as seen by `src/unnamed/part_001`:
`recipient` and `forwarded` query parameters instead of
`original_recipient`. -/
structure PixelRequestP1 where
  id : String
  recipient : Option String
  forwarded : Option String
  xForwardedFor : Option String
  remoteAddress : Option String
  userAgent : Option String
  referer : Option String
  ua : UaInfo
  deriving DecidableEq, Repr

/-- `getGeolocation` of `src/unnamed/part_001` (lines 54-77): a single
`ip-api.com` stage inside a `try`, with the all-unknown fallback. -/
def getGeolocationP1 (env : GeoEnv) (_ip : String) : Location :=
  match env.ipApi with
  | JsResult.value (some d) =>
    if d.status = some "success" then normalizeIpApiP1 d else unknownLocation
  | _ => unknownLocation

/-- `app.get('/pixel/:id.png')` of `src/unnamed/part_001` (lines 80-126):
the event type is `forward-open` exactly when the query carries
`forwarded=true`, and the payload carries `recipient || 'unknown'` as
`originalRecipient`. -/
def pixelHandlerP1 (env : GeoEnv) (store : Store) (req : PixelRequestP1) (ts : String) :
    Store × LogEntry × HttpResponse :=
  let trackingId := req.id
  let originalRecipient := strOr req.recipient "unknown"
  let ip := clientIp req.xForwardedFor req.remoteAddress
  let location := getGeolocationP1 env ip
  let ev := Event.pixelOpenP1 (if req.forwarded = some "true" then "forward-open" else "open")
    originalRecipient ip location ts (deviceOf req.ua)
  let r := logTrackingEvent store trackingId ts ev
  (r.1, r.2, pixelHttpResponse)

set_option maxRecDepth 8192 in
set_option exponentiation.threshold 400 in
/-- Claim C2: every pixel request is answered with the fixed response —
status 200, the cache-defeating headers, and the 1x1 transparent GIF bytes
(`GIF89a`, width 1, height 1) — for every resolver/classifier environment,
in variant 1 and in part_001. -/
theorem pixel_response_fixed_regardless :
    (∀ (env : GeoEnv) (store : Store) (req : PixelRequest) (ts : String),
        ∃ store2 entry,
          pixelHandler env store req ts = JsResult.value (store2, entry, pixelHttpResponse))
    ∧ pixelHttpResponse.status = 200
    ∧ List.lookup "Cache-Control" pixelHttpResponse.headers
        = some "no-store, no-cache, must-revalidate, proxy-revalidate"
    ∧ List.lookup "Pragma" pixelHttpResponse.headers = some "no-cache"
    ∧ List.lookup "Expires" pixelHttpResponse.headers = some "0"
    ∧ pixelHttpResponse.body = pixelBuffer
    ∧ pixelBuffer.take 6 = [71, 73, 70, 56, 57, 97]
    ∧ (pixelBuffer.drop 6).take 4 = [1, 0, 1, 0]
    ∧ (∀ (env : GeoEnv) (store : Store) (req : PixelRequestP1) (ts : String),
        (pixelHandlerP1 env store req ts).2.2 = pixelHttpResponse) := by
  refine ⟨?_, rfl, by decide, by decide, by decide, rfl, by decide, by decide, ?_⟩
  · intro env store req ts
    obtain ⟨⟨loc, tr⟩, h⟩ :=
      getGeolocation_value env (clientIp req.xForwardedFor req.remoteAddress)
    exact ⟨_, _, by simp only [pixelHandler, h]; rfl⟩
  · intro env store req ts
    rfl

/-- A parsed user agent with every field absent. -/
def uaNone : UaInfo :=
  { browserName := none, browserVersion := none, osName := none, osVersion := none
    deviceModel := none, deviceType := none }

/-- An environment in which the only part_001 provider is down. -/
def envApiDown : GeoEnv :=
  { IPINFO_TOKEN := false, ipinfo := JsResult.value none
    ipApi := JsResult.thrown "ECONNREFUSED", geoip := none }

/-- A pixel request carrying a (mismatched) `recipient` query parameter but
no `forwarded` flag. -/
def reqRecipientOnly : PixelRequestP1 :=
  { id := "t9", recipient := some "other@example.com", forwarded := none
    xForwardedFor := some "8.8.8.8", remoteAddress := none
    userAgent := none, referer := none, ua := uaNone }

/-- Counterexample for C9 as stated: a pixel request that does carry an
additional/mismatched `recipient` parameter — but no `forwarded=true` flag —
is recorded as a plain `open`, not as `forward-open`. -/
theorem pixel_recipient_param_counterexample :
    reqRecipientOnly.recipient = some "other@example.com"
    ∧ reqRecipientOnly.forwarded = none
    ∧ Event.type (pixelHandlerP1 envApiDown [] reqRecipientOnly "T0").2.1.event = "open" := by
  decide

/-- Claim C9 (amended): in part_001's pixel handler the forward indicator is
the explicit `forwarded=true` query parameter carried by the second pixel:
with it the recorded event has type `forward-open`, without it `open`, and
the payload's `originalRecipient` is the `recipient` parameter (or
`'unknown'`). -/
theorem pixel_forward_flag_amended :
    ∀ (env : GeoEnv) (store : Store) (req : PixelRequestP1) (ts : String),
      Event.type (pixelHandlerP1 env store req ts).2.1.event
        = (if req.forwarded = some "true" then "forward-open" else "open")
      ∧ Event.originalRecipientField (pixelHandlerP1 env store req ts).2.1.event
        = some (strOr req.recipient "unknown") := by
  intro env store req ts
  by_cases hf : req.forwarded = some "true"
  · exact ⟨by simp [pixelHandlerP1, logTrackingEvent, mkLogEntry, Event.type,
      Event.ownTimestamp, hf], by simp [pixelHandlerP1, logTrackingEvent, mkLogEntry,
      Event.originalRecipientField, Event.ownTimestamp, hf]⟩
  · exact ⟨by simp [pixelHandlerP1, logTrackingEvent, mkLogEntry, Event.type,
      Event.ownTimestamp, hf], by simp [pixelHandlerP1, logTrackingEvent, mkLogEntry,
      Event.originalRecipientField, Event.ownTimestamp, hf]⟩
